import Mathlib

/-!
Verification development for the UFL expression-rewriting engine
(ufl/algorithms/transformations.py and ufl/tensors.py).

The expression graph is embedded as an ident-annotated tree: every node
carries an allocation number `ident`, so Python reference identity (the
`is` operator) becomes equality of `Expr` values, while structural
equality (`Expr.__eq__`, which UFL bases on node kind and operands) is
the ident-erasing comparison `eqS`.  Stateful pieces of the engine (the
variable cache, the duplication cache, the Variable count counter and
the allocator) are threaded through an explicit `TState`.  Python
exceptions become the `PyError` sum; the visitor takes a fuel argument
so that it is a total structurally recursive function.
-/

namespace Ufl

/-- An index as used by MultiIndex operands: either a fixed integer
component index or a free symbolic index identified by its count. -/
inductive Idx where
  | fixed (k : Nat)
  | free (count : Nat)
  deriving DecidableEq

/-- Is this an Index (a free symbolic index) as opposed to a FixedIndex? -/
def Idx.isFree : Idx → Bool
  | .free _ => true
  | .fixed _ => false

/-- The free count of an index, if it is a free index. -/
def Idx.freeCount : Idx → Option Nat
  | .free c => some c
  | .fixed _ => none

/-- Node kinds of the expression graph, restricted to the kinds the
rewriting passes under verification touch.  `terminal` stands for the
terminal leaf classes (constants, coefficient functions and so on),
carrying a name tag and a value shape.  `multiIndex` is the MultiIndex
terminal.  `sum`, `product` and `diff` are the nodes built by the
Python operators `+`, `*` and `-` on expressions (their classes are not
under src/, so they are modelled from the spec as plain structural
nodes with an operand sequence).  `indexed` is the indexed-access node
built by subscripting, with the base expression and a MultiIndex as its
two operands.  `componentTensor` is the node built by
ComponentTensor.__init__ in tensors.py.  `variable'` is the Variable
wrapper node carrying its count.  `determinant`, `curl` and `rot` are
the compound-operator nodes handled by the CompoundExpander. -/
inductive EKind where
  | terminal (name : Nat) (sh : List Nat)
  | multiIndex (ix : List Idx)
  | sum
  | product
  | diff
  | indexed
  | componentTensor
  | variable' (count : Nat)
  | determinant
  | curl
  | rot
  deriving DecidableEq

/-- An expression node: a kind, the ordered operand sequence, and the
allocation number standing for the Python object identity. -/
inductive Expr where
  | mk (kind : EKind) (ops : List Expr) (ident : Nat)

def Expr.kind : Expr → EKind
  | .mk k _ _ => k

def Expr.ops : Expr → List Expr
  | .mk _ o _ => o

def Expr.ident : Expr → Nat
  | .mk _ _ i => i

/-- Modelled from the spec: structural equality of expression nodes
(Expr.__eq__, defined in the expression base class, which is not under
src/).  Two nodes are equal iff their kinds are equal and all operands
are recursively structurally equal; the allocation ident is ignored.
Per the spec this equality is load-bearing for duplicate detection and
reuse. -/
def eqS : Expr → Expr → Bool
  | .mk k1 o1 _, .mk k2 o2 _ => k1 == k2 && go o1 o2
where go : List Expr → List Expr → Bool
  | [], [] => true
  | a :: as, b :: bs => eqS a b && go as bs
  | _, _ => false

/-- Python reference identity (the `is` operator): full equality of the
annotated values, the allocation ident included. -/
def eqEx : Expr → Expr → Bool
  | .mk k1 o1 i1, .mk k2 o2 i2 => k1 == k2 && i1 == i2 && go o1 o2
where go : List Expr → List Expr → Bool
  | [], [] => true
  | a :: as, b :: bs => eqEx a b && go as bs
  | _, _ => false

/-- Lookup in an association list whose keys are expressions compared
structurally; this models a Python dict keyed by expression objects,
whose hashing and equality are structural. -/
def lookupS (m : List (Expr × Expr)) (k : Expr) : Option Expr :=
  match m with
  | [] => none
  | (k', v) :: rest => if eqS k' k then some v else lookupS rest k

/-- Membership of an expression in a collection of expressions under
structural equality; models the Python `in` operator on a set of
expressions. -/
def memS (xs : List Expr) (e : Expr) : Bool :=
  xs.any (fun d => eqS d e)

/-- Remove duplicate naturals, keeping first occurrences. -/
def dedupNat : List Nat → List Nat
  | [] => []
  | x :: xs => if (xs.contains x : Bool) then dedupNat xs else x :: dedupNat xs

/-- The free index counts of a MultiIndex expression node. -/
def miFree : Expr → List Nat
  | .mk (.multiIndex ix) _ _ => ix.filterMap Idx.freeCount
  | _ => []

/-- The index list of a MultiIndex node (empty for other nodes). -/
def miIdxList : Expr → List Idx
  | .mk (.multiIndex ix) _ _ => ix
  | _ => []

/-- The free indices of an expression (the free_indices() accessor),
as a deduplicated list of index counts.  For ComponentTensor this is
the stored set computed in ufl/tensors.py: the free indices of the
inner expression minus the binding indices.  For the node kinds whose
classes are not under src/ it is modelled from the spec: the set of
index identities appearing unbound within the node. -/
def free_indices : Expr → List Nat
  | .mk (.terminal _ _) _ _ => []
  | .mk (.multiIndex ix) _ _ => dedupNat (ix.filterMap Idx.freeCount)
  | .mk .componentTensor ops _ =>
    match ops with
    | [e, mi] => (free_indices e).filter (fun j => !((miFree mi).contains j))
    | _ => []
  | .mk _ ops _ => dedupNat (go ops)
where go : List Expr → List Nat
  | [] => []
  | e :: es => free_indices e ++ go es

/-- The shape() and index_dimensions() accessors of an expression,
computed together because they are mutually dependent: the dimension
of a free subscript of an Indexed node is the corresponding axis size
of the base expression's shape, while the shape of a ComponentTensor
is the tuple of its binding indices' dimensions in the inner
expression, as computed and stored by ComponentTensor.__init__ in
ufl/tensors.py.  For the node kinds whose classes are not under src/
the values are modelled from the spec: a fully indexed access is
scalar, sums and differences share the shape of their first operand,
products of scalars are scalar, a Variable has the shape of the
expression it wraps, a determinant is scalar, and index dimension
mappings of non-binding nodes are the union of their operands'
mappings. -/
def attrs : Expr → List Nat × List (Nat × Nat)
  | .mk k ops _ =>
    let sub := go ops
    let subShape := fun (n : Nat) => ((sub.get? n).map Prod.fst).getD []
    let subDims := fun (n : Nat) => ((sub.get? n).map Prod.snd).getD []
    match k with
    | .terminal _ sh => (sh, [])
    | .multiIndex _ => ([], [])
    | .sum => (subShape 0, (sub.map Prod.snd).flatten)
    | .product => ([], (sub.map Prod.snd).flatten)
    | .diff => (subShape 0, (sub.map Prod.snd).flatten)
    | .indexed =>
      match ops with
      | [_, mi] =>
        ([], (((miIdxList mi).zip (subShape 0)).filterMap
            (fun p => match p.1 with
              | .free c => some (c, p.2)
              | .fixed _ => none)) ++ subDims 0)
      | _ => ([], (sub.map Prod.snd).flatten)
    | .componentTensor =>
      match ops with
      | [_, mi] =>
        (((miFree mi).map (fun i => ((subDims 0).lookup i).getD 0)),
         (subDims 0).filter (fun p => !((miFree mi).contains p.1)))
      | _ => ([], [])
    | .variable' _ => (subShape 0, (sub.map Prod.snd).flatten)
    | .determinant => ([], (sub.map Prod.snd).flatten)
    | .curl => (subShape 0, (sub.map Prod.snd).flatten)
    | .rot => ([], (sub.map Prod.snd).flatten)
where go : List Expr → List (List Nat × List (Nat × Nat))
  | [] => []
  | e :: es => attrs e :: go es

/-- The value shape of an expression (the shape() accessor). -/
def shape (e : Expr) : List Nat := (attrs e).1

/-- The index_dimensions() accessor: an association list from free
index counts to axis sizes. -/
def index_dimensions (e : Expr) : List (Nat × Nat) := (attrs e).2

/-- The dimension recorded for a free index in an expression's
index_dimensions mapping (0 if the index is absent). -/
def dimOf (e : Expr) (i : Nat) : Nat := ((index_dimensions e).lookup i).getD 0

/-- The rank of an expression: the length of its shape. -/
def rank (e : Expr) : Nat := (shape e).length

/-- Structural equality of operand tuples (Python == applied to tuples
of expressions compares elementwise with Expr.__eq__). -/
def eqSList : List Expr → List Expr → Bool := eqS.go

/-- Python exceptions raised by the engine: TypeError for calls with a
wrong argument count, AssertionError for ufl_assert failures,
IndexError for out-of-range tuple subscripts, RuntimeError for the
dispatch failure in Transformer.visit, NotImplementedError for the
curl and rot handlers, uflError for ufl_error calls such as the
unsupported-dimension failures.  outOfFuel is an artifact of the
embedding: the visitor consumes fuel so that it is total, and every
run in the theorems below is given ample fuel. -/
inductive PyError where
  | typeError
  | assertionError
  | indexError
  | runtimeError
  | notImplementedError
  | uflError
  | outOfFuel
  deriving DecidableEq

/-- The mutable state threaded through a rewrite: the variable cache of
Transformer/Copier (keyed by Variable count), the _variables dict of
DuplicationMarker (keyed structurally), the global Variable count
counter, and the allocation counter supplying object identities. -/
structure TState where
  varCache : List (Nat × Expr)
  varMap : List (Expr × Expr)
  nextCount : Nat
  nextIdent : Nat

/-- Result of a rewrite step: a Python exception or a value with the
updated state. -/
abbrev Res := Except PyError (Expr × TState)

/-- Whether a rewrite produced a result (as opposed to raising). -/
def isOk : Res → Bool
  | .ok _ => true
  | .error _ => false

/-- Allocate a node with a fresh object identity. -/
def alloc (k : EKind) (ops : List Expr) (st : TState) : Expr × TState :=
  (.mk k ops st.nextIdent, { st with nextIdent := st.nextIdent + 1 })

/-- Modelled from the spec: the Variable constructor (ufl/variable.py
is not under src/).  A Variable wraps exactly one inner expression and
carries a stable integer count that is its identity for caching; with
an explicit count the new Variable carries that count, and with no
count it draws a fresh count from the global counter. -/
def Variable_new (e : Expr) (count : Option Nat) (st : TState) : Expr × TState :=
  match count with
  | some c => alloc (.variable' c) [e] st
  | none => alloc (.variable' st.nextCount) [e] { st with nextCount := st.nextCount + 1 }

/-- The indices argument of ComponentTensor.__init__: either a tuple
of indices, or an already constructed MultiIndex node (the
from-repr path, also taken on reconstruction from rewritten
operands). -/
inductive CTIndices where
  | tuple (idxs : List Idx)
  | multi (mi : Expr)

/-- Shared tail of ComponentTensor.__init__ in ufl/tensors.py once
self._indices is in MultiIndex form: the assert that every index is an
Index instance, the free and missing index computation with the assert
that no binding index is missing from the inner expression, and the
construction of the node (whose stored free indices, index dimensions
and shape are recomputed by the accessors above). -/
def ctFinish (expression : Expr) (mi : Expr) (st : TState) : Res :=
  if (miIdxList mi).all Idx.isFree = false then .error .assertionError
  else
    let eset := free_indices expression
    let iset := miFree mi
    if iset.all (fun i => eset.contains i) = false then .error .assertionError
    else .ok (alloc .componentTensor [expression, mi] st)

/-- ComponentTensor.__init__ from ufl/tensors.py: assert the inner
expression is scalar valued, bring the indices into MultiIndex form
(asserting that a tuple argument holds only Index instances), then run
the shared tail. -/
def ComponentTensor_init (expression : Expr) (indices : CTIndices) (st : TState) : Res :=
  if shape expression = [] then
    match indices with
    | .multi mi => ctFinish expression mi st
    | .tuple idxs =>
      if idxs.all Idx.isFree = false then .error .assertionError
      else
        let (mi, st1) := alloc (.multiIndex idxs) [] st
        ctFinish expression mi st1
  else .error .assertionError

/-- as_tensor from ufl/tensors.py for the index-tuple path the claims
exercise (the indices=None path builds a ListTensor, which no claim
touches and is not embedded): assert every index is an Index, then
construct the ComponentTensor. -/
def as_tensor (expressions : Expr) (indices : List Idx) (st : TState) : Res :=
  if indices.all Idx.isFree = false then .error .assertionError
  else ComponentTensor_init expressions (.tuple indices) st

/-- as_matrix from ufl/tensors.py for the index-tuple path: as
as_tensor plus the assert that exactly two indices are given. -/
def as_matrix (expressions : Expr) (indices : List Idx) (st : TState) : Res :=
  if indices.all Idx.isFree = false then .error .assertionError
  else if indices.length = 2 then ComponentTensor_init expressions (.tuple indices) st
  else .error .assertionError

/-- Reconstruction of a node from rewritten operands: the call
type(o)(*operands) in transformations.py.  For a ComponentTensor this
runs ComponentTensor.__init__ on the rewritten expression and
MultiIndex operands; reconstructing a Variable from its operands
would allocate a fresh count, since the count is not an operand; the
remaining kinds are modelled from the spec as plain structural
construction, their classes not being under src/. -/
def reconstruct (k : EKind) (ops : List Expr) (st : TState) : Res :=
  match k with
  | .componentTensor =>
    match ops with
    | [e, mi] => ComponentTensor_init e (.multi mi) st
    | _ => .error .typeError
  | .variable' _ =>
    match ops with
    | [e] => .ok (Variable_new e none st)
    | _ => .error .typeError
  | _ => .ok (alloc k ops st)

/-- The handlers a rule set can resolve to.  Each constructor stands
for one handler method of transformations.py (t_variable is
Transformer.variable, r_terminal is Replacer.terminal, c_expr and
c_variable are Copier.expr and Copier.variable, vs_variable is
VariableStripper.variable, the dm handlers belong to
DuplicationMarker, the ce handlers to CompoundExpander); payloads
carry the state of the owning transformer that the bound method
reads. -/
inductive H where
  | reuse
  | reuse_if_possible
  | t_variable
  | r_terminal (mapping : List (Expr × Expr))
  | c_expr
  | c_variable
  | vs_variable
  | dm_terminal
  | dm_expr (dups : List Expr)
  | dm_variable
  | ce_determinant (dim : Nat)
  | ce_curl
  | ce_rot

/-- The length of h.func_code.co_varnames for each handler: the number
of local variable names of the method, its parameters included, as
counted from the source.  Transformer.visit compares this length, not
the parameter count, against two to decide whether to supply rewritten
children. -/
def cvn : H → Nat
  | .reuse => 2
  | .reuse_if_possible => 3
  | .t_variable => 6
  | .r_terminal _ => 3
  | .c_expr => 3
  | .c_variable => 4
  | .vs_variable => 2
  | .dm_terminal => 2
  | .dm_expr _ => 5
  | .dm_variable => 5
  | .ce_determinant _ => 5
  | .ce_curl => 3
  | .ce_rot => 3

/-- Whether the handler's Python signature accepts n positional
arguments after the node: handlers with a *-parameter accept any
number, the two-parameter handlers accept none, and the compound
expander handlers accept exactly their declared operand count. -/
def acceptsExtra : H → Nat → Bool
  | .reuse, n => n == 0
  | .reuse_if_possible, _ => true
  | .t_variable, n => n == 0
  | .r_terminal _, n => n == 0
  | .c_expr, _ => true
  | .c_variable, n => n == 0
  | .vs_variable, n => n == 0
  | .dm_terminal, n => n == 0
  | .dm_expr _, _ => true
  | .dm_variable, n => n == 0
  | .ce_determinant _, n => n == 1
  | .ce_curl, n => n == 1
  | .ce_rot, n => n == 1

/-- The transformer classes of transformations.py as rule sets: base
is Transformer itself (the identity rewrite of ufl2ufl), replacer
carries the terminal substitution mapping, copier is Copier, stripper
is VariableStripper, dupMarker carries the duplication set, expander
carries the geometric dimension. -/
inductive RS where
  | base
  | replacer (mapping : List (Expr × Expr))
  | copier
  | stripper
  | dupMarker (dups : List Expr)
  | expander (dim : Nat)

/-- Handler resolution: the table built by Transformer.__init__, which
walks each concrete class's method resolution order and registers the
first handler an ancestor provides, falling back from the concrete
kind to the terminal rule for terminal kinds (terminals and
MultiIndex) and to the generic expr rule otherwise.  The expression
class ancestry is not under src/, so the outcome of the walk follows
the spec's kind categories. -/
def resolveHandler : RS → EKind → Option H
  | .base, .variable' _ => some .t_variable
  | .base, .terminal _ _ => some .reuse
  | .base, .multiIndex _ => some .reuse
  | .base, _ => some .reuse_if_possible
  | .replacer m, .terminal _ _ => some (.r_terminal m)
  | .replacer m, .multiIndex _ => some (.r_terminal m)
  | .replacer _, .variable' _ => some .t_variable
  | .replacer _, _ => some .reuse_if_possible
  | .copier, .variable' _ => some .c_variable
  | .copier, .terminal _ _ => some .reuse
  | .copier, .multiIndex _ => some .reuse
  | .copier, _ => some .c_expr
  | .stripper, .variable' _ => some .vs_variable
  | .stripper, .terminal _ _ => some .reuse
  | .stripper, .multiIndex _ => some .reuse
  | .stripper, _ => some .reuse_if_possible
  | .dupMarker _, .variable' _ => some .dm_variable
  | .dupMarker _, .terminal _ _ => some .dm_terminal
  | .dupMarker _, .multiIndex _ => some .dm_terminal
  | .dupMarker D, _ => some (.dm_expr D)
  | .expander dim, .determinant => some (.ce_determinant dim)
  | .expander _, .curl => some .ce_curl
  | .expander _, .rot => some .ce_rot
  | .expander _, .variable' _ => some .t_variable
  | .expander _, .terminal _ _ => some .reuse
  | .expander _, .multiIndex _ => some .reuse
  | .expander _, _ => some .reuse_if_possible

/-- Transformer.reuse_if_possible, the generic rule: reuse o when the
rewritten operands compare equal (Python ==, structural equality) to
the original operands, otherwise reconstruct with
type(o)(*operands). -/
def reuse_if_possible (o : Expr) (operands : List Expr) (st : TState) : Res :=
  if eqSList operands o.ops then .ok (o, st) else reconstruct o.kind operands st

/-- Transformer.reuse, the terminal rule: always return the node. -/
def reuse (o : Expr) (st : TState) : Res := .ok (o, st)

/-- Transformer.variable, the variable rule, with the recursive visit
call abstracted as recur: on a cache hit by count return the cached
result; on a miss rewrite the wrapped expression, return the Variable
itself if the rewrite came back reference-identical, and otherwise
construct a Variable with the same count around the new expression,
cache it and return it. -/
def transformer_variable (recur : Expr → TState → Res) (o : Expr) (st : TState) : Res :=
  match o.kind with
  | .variable' c =>
    match st.varCache.lookup c with
    | some v => .ok (v, st)
    | none =>
      match o.ops with
      | [e] =>
        match recur e st with
        | .error err => .error err
        | .ok (e2, st1) =>
          if eqEx e e2 then .ok (o, st1)
          else
            let (v, st2) := Variable_new e2 (some c) st1
            .ok (v, { st2 with varCache := (c, v) :: st2.varCache })
      | _ => .error .typeError
  | _ => .error .typeError

/-- Replacer.terminal: look the terminal up in the mapping; unmapped
terminals pass through unchanged. -/
def replacer_terminal (mapping : List (Expr × Expr)) (o : Expr) (st : TState) : Res :=
  match lookupS mapping o with
  | none => .ok (o, st)
  | some e => .ok (e, st)

/-- Copier.expr: always reconstruct. -/
def copier_expr (o : Expr) (ops : List Expr) (st : TState) : Res :=
  reconstruct o.kind ops st

/-- Copier.variable: on a cache miss, copy the wrapped expression and
build a Variable with the same count around the copy, caching it by
count. -/
def copier_variable (recur : Expr → TState → Res) (o : Expr) (st : TState) : Res :=
  match o.kind with
  | .variable' c =>
    match st.varCache.lookup c with
    | some v => .ok (v, st)
    | none =>
      match o.ops with
      | [e0] =>
        match recur e0 st with
        | .error err => .error err
        | .ok (e, st1) =>
          let (v, st2) := Variable_new e (some c) st1
          .ok (v, { st2 with varCache := (c, v) :: st2.varCache })
      | _ => .error .typeError
  | _ => .error .typeError

/-- VariableStripper.variable: rewrite and return the wrapped
expression, dropping the Variable wrapper. -/
def variable_stripper_variable (recur : Expr → TState → Res) (o : Expr) (st : TState) : Res :=
  match o.ops with
  | [e] => recur e st
  | _ => .error .typeError

/-- DuplicationMarker.terminal: terminals pass through unchanged. -/
def duplication_marker_terminal (o : Expr) (st : TState) : Res := .ok (o, st)

/-- Whether a node is a Variable. -/
def isVariableKind : Expr → Bool
  | .mk (.variable' _) _ _ => true
  | _ => false

/-- The _expression attribute of a Variable node. -/
def innerOf (e : Expr) : Expr :=
  match e.ops with
  | [x] => x
  | _ => e

/-- DuplicationMarker.expr: consult the _variables dict keyed by the
node as encountered; on a miss, reconstruct if any rewritten operand
differs structurally, then wrap in a fresh Variable if the node is in
the duplication set under either its pre- or post-reconstruction form,
caching the Variable under both forms. -/
def duplication_marker_expr (dups : List Expr) (o : Expr) (ops : List Expr) (st : TState) : Res :=
  match lookupS st.varMap o with
  | some v => .ok (v, st)
  | none =>
    if eqSList ops o.ops then
      if memS dups o then
        let (v, st1) := Variable_new o none st
        .ok (v, { st1 with varMap := (o, v) :: (o, v) :: st1.varMap })
      else .ok (o, st)
    else
      match reconstruct o.kind ops st with
      | .error err => .error err
      | .ok (o', st1) =>
        if memS dups o || memS dups o' then
          let (v, st2) := Variable_new o' none st1
          .ok (v, { st2 with varMap := (o, v) :: (o', v) :: st2.varMap })
        else .ok (o', st1)

/-- DuplicationMarker.variable: look the wrapped expression up in the
_variables dict; on a miss rewrite it, unwrap one Variable layer when
the rewrite introduced a wrapper around a non-Variable, then reuse a
cached Variable for the unwrapped form or build one with the original
count, caching it under both the original and the rewritten form. -/
def duplication_marker_variable (recur : Expr → TState → Res) (o : Expr) (st : TState) : Res :=
  match o.kind with
  | .variable' c =>
    match o.ops with
    | [e] =>
      match lookupS st.varMap e with
      | some v => .ok (v, st)
      | none =>
        match recur e st with
        | .error err => .error err
        | .ok (e2, st1) =>
          let e2' := if !(isVariableKind e) && isVariableKind e2 then innerOf e2 else e2
          match lookupS st1.varMap e2' with
          | some v => .ok (v, st1)
          | none =>
            let (v, st2) := Variable_new e2' (some c) st1
            .ok (v, { st2 with varMap := (e2', v) :: (e, v) :: st2.varMap })
    | _ => .error .typeError
  | _ => .error .typeError

/-- Python subscripting B[i, k] with fixed component indices: builds a
MultiIndex and an Indexed node (subscripting is not under src/ and is
modelled from the spec's indexed-access node kind). -/
def getitem2 (B : Expr) (i k : Nat) (st : TState) : Expr × TState :=
  let (mi, st1) := alloc (.multiIndex [.fixed i, .fixed k]) [] st
  alloc .indexed [B, mi] st1

/-- The det2D helper inside CompoundExpander.determinant:
B[i,k]*B[j,l] - B[i,l]*B[j,k]. -/
def det2D (B : Expr) (i j k l : Nat) (st : TState) : Expr × TState :=
  let (x1, st) := getitem2 B i k st
  let (x2, st) := getitem2 B j l st
  let (p1, st) := alloc .product [x1, x2] st
  let (x3, st) := getitem2 B i l st
  let (x4, st) := getitem2 B j k st
  let (p2, st) := alloc .product [x3, x4] st
  alloc .diff [p1, p2] st

/-- Modelled from the spec: complete_shape from ufl/indexing.py (not
under src/) completes unspecified axis sizes with the geometric
dimension; shapes in this embedding are fully specified lists of
sizes, so completion returns the shape unchanged. -/
def complete_shape (sh : List Nat) (_dim : Nat) : List Nat := sh

/-- CompoundExpander.determinant: rank 0 returns A unchanged, 2x2 and
3x3 use the explicit minor-expansion formulas, and any other dimension
fails with ufl_error.  The square-matrix assert reads sh[1], which on
a rank-1 shape raises an IndexError. -/
def determinant (dim : Nat) (A : Expr) (st : TState) : Res :=
  match complete_shape (shape A) dim with
  | [] => .ok (A, st)
  | [_] => .error .indexError
  | s0 :: s1 :: _ =>
    if s0 == s1 then
      if s0 == 2 then .ok (det2D A 0 1 0 1 st)
      else if s0 == 3 then
        let (a00, st) := getitem2 A 0 0 st
        let (d1, st) := det2D A 1 2 1 2 st
        let (m1, st) := alloc .product [a00, d1] st
        let (a01, st) := getitem2 A 0 1 st
        let (d2, st) := det2D A 1 2 2 0 st
        let (m2, st) := alloc .product [a01, d2] st
        let (a02, st) := getitem2 A 0 2 st
        let (d3, st) := det2D A 1 2 0 1 st
        let (m3, st) := alloc .product [a02, d3] st
        let (s12, st) := alloc .sum [m1, m2] st
        .ok (alloc .sum [s12, m3] st)
      else .error .uflError
    else .error .assertionError

/-- CompoundExpander.curl: raise NotImplementedError. -/
def curl (_a : Expr) (_st : TState) : Res := .error .notImplementedError

/-- CompoundExpander.rot: raise NotImplementedError. -/
def rot (_a : Expr) (_st : TState) : Res := .error .notImplementedError

/-- The children-visiting loop of Transformer.visit, the list
comprehension over self.visit of each operand, with the recursive
visit abstracted as recur. -/
def visitChildren (recur : Expr → TState → Res) :
    List Expr → TState → Except PyError (List Expr × TState)
  | [], st => .ok ([], st)
  | o :: os, st =>
    match recur o st with
    | .error err => .error err
    | .ok (e, st1) =>
      match visitChildren recur os st1 with
      | .error err => .error err
      | .ok (es, st2) => .ok (e :: es, st2)

/-- Dispatch to a handler body when the engine supplies rewritten
children (the branch Transformer.visit takes when the co_varnames
length exceeds two); a handler whose signature does not accept the
supplied argument count raises a TypeError at the call. -/
def runWithChildren (recur : Expr → TState → Res) (h : H) (o : Expr) (cs : List Expr)
    (st : TState) : Res :=
  if acceptsExtra h cs.length then
    match h with
    | .reuse => reuse o st
    | .reuse_if_possible => reuse_if_possible o cs st
    | .t_variable => transformer_variable recur o st
    | .r_terminal m => replacer_terminal m o st
    | .c_expr => copier_expr o cs st
    | .c_variable => copier_variable recur o st
    | .vs_variable => variable_stripper_variable recur o st
    | .dm_terminal => duplication_marker_terminal o st
    | .dm_expr D => duplication_marker_expr D o cs st
    | .dm_variable => duplication_marker_variable recur o st
    | .ce_determinant dim =>
      match cs with
      | [A] => determinant dim A st
      | _ => .error .typeError
    | .ce_curl =>
      match cs with
      | [a] => curl a st
      | _ => .error .typeError
    | .ce_rot =>
      match cs with
      | [a] => rot a st
      | _ => .error .typeError
  else .error .typeError

/-- Dispatch to a handler when the engine calls it with only the node
(the branch taken when the co_varnames length is at most two).  Only
reuse, DuplicationMarker.terminal and VariableStripper.variable have
two local names; the remaining constructors cannot reach this branch
and fail as an internal error. -/
def runSelfOnly (recur : Expr → TState → Res) (h : H) (o : Expr) (st : TState) : Res :=
  match h with
  | .reuse => reuse o st
  | .dm_terminal => duplication_marker_terminal o st
  | .vs_variable => variable_stripper_variable recur o st
  | _ => .error .runtimeError

/-- Transformer.visit: look up the handler registered for the node's
kind, fail with a RuntimeError when none is found, and otherwise call
the handler with rewritten children exactly when the handler's
co_varnames length exceeds two, and with only the node otherwise.  The
fuel argument makes the recursion total; every concrete run below is
given ample fuel. -/
def visit (rs : RS) : Nat → Expr → TState → Res
  | 0, _, _ => .error .outOfFuel
  | fuel + 1, o, st =>
    match resolveHandler rs o.kind with
    | none => .error .runtimeError
    | some h =>
      if 2 < cvn h then
        match visitChildren (visit rs fuel) o.ops st with
        | .error err => .error err
        | .ok (cs, st1) => runWithChildren (visit rs fuel) h o cs st1
      else runSelfOnly (visit rs fuel) h o st

/-- A transformer construction starts with empty caches
(Transformer.__init__ with no externally supplied cache); the counters
model global Python allocation state and carry over. -/
def freshCaches (st : TState) : TState := { st with varCache := [], varMap := [] }

/-- apply_transformer for the expression case (Form containers are out
of scope of the claims under verification). -/
def apply_transformer (rs : RS) (fuel : Nat) (e : Expr) (st : TState) : Res :=
  visit rs fuel e st

/-- ufl2ufl: the identity rewrite, apply_transformer(e, Transformer()). -/
def ufl2ufl (fuel : Nat) (e : Expr) (st : TState) : Res :=
  apply_transformer .base fuel e (freshCaches st)

/-- Copier.__init__(self, mapping) requires a mapping argument (which
the body then ignores); the constructor call is modelled on the list
of supplied positional arguments. -/
def Copier_new (args : List (List (Expr × Expr))) : Except PyError RS :=
  match args with
  | [_] => .ok .copier
  | _ => .error .typeError

/-- VariableStripper.__init__(self, mapping) likewise requires a
mapping argument that the body ignores. -/
def VariableStripper_new (args : List (List (Expr × Expr))) : Except PyError RS :=
  match args with
  | [_] => .ok .stripper
  | _ => .error .typeError

/-- ufl2uflcopy calls Copier() with no arguments. -/
def ufl2uflcopy (fuel : Nat) (e : Expr) (st : TState) : Res :=
  match Copier_new [] with
  | .error err => .error err
  | .ok rs => apply_transformer rs fuel e (freshCaches st)

/-- strip_variables calls VariableStripper() with no arguments. -/
def strip_variables (fuel : Nat) (e : Expr) (st : TState) : Res :=
  match VariableStripper_new [] with
  | .error err => .error err
  | .ok rs => apply_transformer rs fuel e (freshCaches st)

/-- expand_compounds with an explicit geometric dimension. -/
def expand_compounds (fuel : Nat) (dim : Nat) (e : Expr) (st : TState) : Res :=
  apply_transformer (.expander dim) fuel e (freshCaches st)

/-- All subexpression occurrences of an expression, the node itself
included. -/
def subexprOccurrences : Expr → List Expr
  | .mk k ops i => .mk k ops i :: go ops
where go : List Expr → List Expr
  | [] => []
  | e :: es => subexprOccurrences e ++ go es

/-- Modelled from the spec: extract_duplications from
ufl/algorithms/analysis.py (not under src/), the external collaborator
returning the set of subexpressions occurring more than once in the
expression under structural equality. -/
def extract_duplications (e : Expr) : List Expr :=
  (subexprOccurrences e).filter
    (fun s => 2 ≤ (subexprOccurrences e).countP (fun t => eqS s t))

/-- mark_duplications: wrap subexpressions that occur more than once
in Variable objects, apply_transformer(e, DuplicationMarker(
extract_duplications(e))). -/
def mark_duplications (fuel : Nat) (e : Expr) (st : TState) : Res :=
  apply_transformer (.dupMarker (extract_duplications e)) fuel e (freshCaches st)

/-! Concrete fixtures used by the theorems: a handful of terminals and
small graphs, together with a start state whose allocation counter is
above every ident occurring in them. -/

/-- A start state: empty caches, count counter 0, allocator at 100. -/
def st0 : TState := ⟨[], [], 0, 100⟩

/-- A scalar terminal named a. -/
def aT : Expr := .mk (.terminal 0 []) [] 1

/-- A scalar terminal named b, a distinct instance. -/
def bT : Expr := .mk (.terminal 1 []) [] 2

/-- A second instance of the terminal a: structurally equal to aT but
with a different object identity. -/
def aS : Expr := .mk (.terminal 0 []) [] 50

/-- The sum a+b (first instance). -/
def s1 : Expr := .mk .sum [aT, bT] 3

/-- The sum a+b (second instance: structurally equal to s1, distinct
object, as Python builds for the second occurrence in (a+b)*(a+b)). -/
def s2 : Expr := .mk .sum [aT, bT] 4

/-- The product (a+b)*(a+b) built from the two distinct sum
instances. -/
def eDup : Expr := .mk .product [s1, s2] 5

/-- A scalar terminal named f. -/
def fT : Expr := .mk (.terminal 2 []) [] 6

/-- A scalar terminal named g. -/
def gT : Expr := .mk (.terminal 3 []) [] 7

/-- A Variable with count 0 wrapping the terminal f. -/
def vF : Expr := .mk (.variable' 0) [fT] 8

/-- A 2x2 matrix-valued terminal A. -/
def A22 : Expr := .mk (.terminal 4 [2, 2]) [] 9

/-- A 5x5 matrix-valued terminal. -/
def A55 : Expr := .mk (.terminal 5 [5, 5]) [] 10

/-- The determinant of the scalar terminal f (a rank-0 operand). -/
def detF : Expr := .mk .determinant [fT] 11

/-- The determinant of the 2x2 matrix A. -/
def detA2 : Expr := .mk .determinant [A22] 12

/-- The determinant of the 5x5 matrix. -/
def detA5 : Expr := .mk .determinant [A55] 13

/-- A MultiIndex holding the free indices 5 and 7. -/
def tmi2 : Expr := .mk (.multiIndex [.free 5, .free 7]) [] 30

/-- The scalar indexed access A[i5, i7] with free indices 5 and 7. -/
def tIx2 : Expr := .mk .indexed [A22, tmi2] 31

/-- The Variable the duplication marker creates for the shared sum in
(a+b)*(a+b): count 0, wrapping the first sum instance, allocated at
ident 100. -/
def vShared : Expr := .mk (.variable' 0) [s1] 100

/-- The ComponentTensor node produced by binding index 5 of A[i5, i7]
starting from st0. -/
def ctR : Expr := .mk .componentTensor [tIx2, .mk (.multiIndex [.free 5]) [] 100] 101

/-- The indexed access A[i, j] with fixed indices as the spec writes
it, with placeholder idents (compared only structurally). -/
def specIx (A : Expr) (i j : Nat) : Expr :=
  .mk .indexed [A, .mk (.multiIndex [.fixed i, .fixed j]) [] 0] 0

/-- The spec's expected lowering of the determinant of a 2x2 matrix:
A[0,0]*A[1,1] - A[0,1]*A[1,0], with placeholder idents (compared only
structurally). -/
def specDet2x2 (A : Expr) : Expr :=
  .mk .diff
    [.mk .product [specIx A 0 0, specIx A 1 1] 0,
     .mk .product [specIx A 0 1, specIx A 1 0] 0] 0

/-! Helper lemmas. -/

mutual

/-- Structural equality is reflexive. -/
theorem eqS_refl : ∀ (e : Expr), eqS e e = true
  | .mk k ops _ => by
    show (k == k && eqS.go ops ops) = true
    simp only [Bool.and_eq_true]
    exact ⟨beq_self_eq_true k, eqS_go_refl ops⟩

/-- Structural equality of operand lists is reflexive. -/
theorem eqS_go_refl : ∀ (l : List Expr), eqS.go l l = true
  | [] => rfl
  | e :: es => by
    show (eqS e e && eqS.go es es) = true
    simp only [Bool.and_eq_true]
    exact ⟨eqS_refl e, eqS_go_refl es⟩

end

/-- Structural equality of operand tuples is reflexive. -/
theorem eqSList_refl (l : List Expr) : eqSList l l = true := eqS_go_refl l

/-- The curl handler never lets a dispatched call produce a value:
whatever the argument count check and the operand list give, the body
raises. -/
theorem runWithChildren_curl_not_ok (recur : Expr → TState → Res) (o : Expr)
    (cs : List Expr) (st : TState) :
    isOk (runWithChildren recur .ce_curl o cs st) = false := by
  unfold runWithChildren
  split
  · match cs with
    | [] => rfl
    | [a] => rfl
    | a :: b :: rest => rfl
  · rfl

/-- The rot handler never lets a dispatched call produce a value. -/
theorem runWithChildren_rot_not_ok (recur : Expr → TState → Res) (o : Expr)
    (cs : List Expr) (st : TState) :
    isOk (runWithChildren recur .ce_rot o cs st) = false := by
  unfold runWithChildren
  split
  · match cs with
    | [] => rfl
    | [a] => rfl
    | a :: b :: rest => rfl
  · rfl

/-! Claim theorems. -/

/-- Claim C1 (code bug): the engine is claimed to call a handler that
declares exactly self plus node (such as the variable rule) with only
the node.  The code instead compares len(h.func_code.co_varnames)
against two, and co_varnames counts every local variable name of the
method: Transformer.variable declares parameters self and o but also
binds c, v, e and e2, so its count is six, the engine supplies the
rewritten child to the two-parameter method, and the call raises a
TypeError — the identity rewrite crashes on any Variable node instead
of letting the variable rule manage its own recursion. -/
theorem visit_misdispatches_variable_rule :
    cvn .t_variable = 6 ∧ 2 < cvn .t_variable ∧
    ufl2ufl 100 vF st0 = .error .typeError := ⟨rfl, by decide, rfl⟩

/-- Claim C2 counterexample: visiting the Variable vF with the identity
rule set misses the cache, rewrites the inner expression to itself, and
returns the Variable unchanged while leaving the cache without any
entry for count 0 — the claim says the Variable itself is cached on
this path. -/
theorem variable_rule_unchanged_not_cached :
    transformer_variable (visit .base 99) vF st0 = .ok (vF, st0) ∧
    st0.varCache.lookup 0 = none := ⟨rfl, rfl⟩

/-- Claim C2 as amended: for every Variable node visited by the
variable rule, a cache hit keyed by the count returns the cached
result; on a miss the wrapped expression is rewritten, and if the
result is the same node the Variable is returned unchanged without
being cached, while if it differs a new Variable with the same count
wrapping the new expression is cached and returned — so a changed
Variable is rewritten at most once per cache lifetime, while an
unchanged one is revisited on each later encounter. -/
theorem transformer_variable_spec (recur : Expr → TState → Res) (o e : Expr) (c : Nat)
    (st : TState) (hk : o.kind = .variable' c) (hops : o.ops = [e]) :
    (∀ v, st.varCache.lookup c = some v → transformer_variable recur o st = .ok (v, st)) ∧
    (st.varCache.lookup c = none → ∀ e2 st1, recur e st = .ok (e2, st1) →
      (eqEx e e2 = true → transformer_variable recur o st = .ok (o, st1)) ∧
      (eqEx e e2 = false →
        transformer_variable recur o st =
          .ok (.mk (.variable' c) [e2] st1.nextIdent,
               ⟨(c, .mk (.variable' c) [e2] st1.nextIdent) :: st1.varCache, st1.varMap,
                st1.nextCount, st1.nextIdent + 1⟩))) := by
  obtain ⟨k, ops, idn⟩ := o
  simp only [Expr.kind] at hk
  simp only [Expr.ops] at hops
  subst hk
  subst hops
  constructor
  · intro v hv
    simp only [transformer_variable, Expr.kind, Expr.ops]
    rw [hv]
  · intro hnone e2 st1 hrec
    simp only [transformer_variable, Expr.kind, Expr.ops]
    rw [hnone, hrec]
    dsimp only
    constructor
    · intro heq
      rw [heq]
      rfl
    · intro hne
      rw [hne]
      rfl

/-- Witness for the amended claim C2 at the Variable vF under the
substitution rule set mapping f to g: the cache misses, the inner
rewrite changes f to g, and the rule returns a fresh Variable with
count 0 wrapping g and caches it under count 0. -/
theorem transformer_variable_spec_witness :
    transformer_variable (visit (.replacer [(fT, gT)]) 99) vF st0 =
      .ok (.mk (.variable' 0) [gT] 100, ⟨[(0, .mk (.variable' 0) [gT] 100)], [], 0, 101⟩) :=
  (((transformer_variable_spec (visit (.replacer [(fT, gT)]) 99) vF fT 0 st0 rfl rfl).2
      rfl gT st0 rfl).2 rfl)

/-- Claim C3 counterexample: the terminal aS is structurally equal to
aT but a distinct instance; rewriting the sum s1 with the operand list
[aS, bT], which is not reference-identical to the original operands,
still returns the original node s1 instead of constructing a new node,
because the generic rule compares operands with Python ==. -/
theorem reuse_if_possible_not_reference_based :
    eqEx aS aT = false ∧
    reuse_if_possible s1 [aS, bT] st0 = .ok (s1, st0) := ⟨rfl, rfl⟩

/-- Claim C3 as amended: the generic reuse rule compares rewritten
operands to the originals by structural equality, not by reference
identity: when the operand tuples are structurally equal (in
particular when they are reference-identical) the original node object
is returned, and otherwise a new node of the same kind is constructed
from the rewritten operands. -/
theorem reuse_if_possible_spec (o : Expr) (operands : List Expr) (st : TState) :
    (operands = o.ops → reuse_if_possible o operands st = .ok (o, st)) ∧
    (eqSList operands o.ops = true → reuse_if_possible o operands st = .ok (o, st)) ∧
    (eqSList operands o.ops = false →
      reuse_if_possible o operands st = reconstruct o.kind operands st) := by
  refine ⟨?_, ?_, ?_⟩
  · intro h
    subst h
    unfold reuse_if_possible
    rw [eqSList_refl]
    rfl
  · intro h
    unfold reuse_if_possible
    rw [h]
    rfl
  · intro h
    unfold reuse_if_possible
    rw [h]
    rfl

/-- Witness for the amended claim C3: reference-identical operands and
merely structurally equal operands both reuse the sum s1, while a
structurally different operand list reconstructs. -/
theorem reuse_if_possible_spec_witness :
    reuse_if_possible s1 [aT, bT] st0 = .ok (s1, st0) ∧
    reuse_if_possible s1 [aS, bT] st0 = .ok (s1, st0) ∧
    reuse_if_possible s1 [gT, bT] st0 = reconstruct s1.kind [gT, bT] st0 :=
  ⟨(reuse_if_possible_spec s1 [aT, bT] st0).1 rfl,
   (reuse_if_possible_spec s1 [aS, bT] st0).2.1 rfl,
   (reuse_if_possible_spec s1 [gT, bT] st0).2.2 rfl⟩

/-- Claim C4 (code bug): the identity rewrite returns the very same
expression on variable-free input, but on any expression containing a
Variable node the arity misdispatch makes it raise a TypeError instead
of returning the expression, so the claimed identity law fails on
well-formed inputs that contain Variables. -/
theorem ufl2ufl_crashes_on_variables :
    ufl2ufl 100 eDup st0 = .ok (eDup, st0) ∧
    ufl2ufl 100 vF st0 = .error .typeError ∧
    ufl2ufl 100 (.mk .product [vF, aT] 40) st0 = .error .typeError := ⟨rfl, rfl, rfl⟩

/-- Claim C5: lowering a determinant with the compound expander
returns the operand itself unchanged at rank 0; for a 2x2 symbolic
matrix it returns an expression structurally equal to
A[0,0]*A[1,1] - A[0,1]*A[1,0]; and at dimension 5 it fails with the
unsupported-dimension ufl_error and produces no expression. -/
theorem determinant_lowering_cases :
    expand_compounds 100 0 detF st0 = .ok (fT, st0) ∧
    (match expand_compounds 100 2 detA2 st0 with
      | .ok (r, _) => eqS r (specDet2x2 A22)
      | .error _ => false) = true ∧
    expand_compounds 100 5 detA5 st0 = .error .uflError := ⟨rfl, rfl, rfl⟩

/-- Claim C6: mark_duplications on (a+b)*(a+b), the sum a+b being in
the extracted duplicate set, returns a product whose two factors are
one and the same Variable instance wrapping the first sum, with the
terminals a and b distinct and untouched inside it; the pass caches
the wrapped duplicate so that both the first sum and the structurally
equal second instance look up to that same Variable. -/
theorem mark_duplications_shares_one_variable :
    memS (extract_duplications eDup) s1 = true ∧
    mark_duplications 100 eDup st0 =
      .ok (.mk .product [vShared, vShared] 101,
           ⟨[], [(s1, vShared), (s1, vShared)], 1, 102⟩) ∧
    lookupS [(s1, vShared), (s1, vShared)] s1 = some vShared ∧
    lookupS [(s1, vShared), (s1, vShared)] s2 = some vShared ∧
    vShared.ops = [s1] ∧ s1.ops = [aT, bT] ∧ eqEx aT bT = false :=
  ⟨rfl, rfl, rfl, rfl, rfl, rfl, rfl⟩

/-- Claim C7 (code bug): the copy rule set reconstructs every
non-terminal of a variable-free expression while keeping the terminals
shared, but on a Variable node the arity misdispatch supplies the
rewritten child to the two-parameter Copier.variable (four local
names) and the copy raises a TypeError instead of building a fresh
Variable. -/
theorem copier_crashes_on_variables :
    apply_transformer .copier 100 eDup st0 =
      .ok (.mk .product [.mk .sum [aT, bT] 100, .mk .sum [aT, bT] 101] 102,
           ⟨[], [], 0, 103⟩) ∧
    cvn .c_variable = 4 ∧
    apply_transformer .copier 100 vF st0 = .error .typeError := ⟨rfl, rfl, rfl⟩

/-- Claim C8: lowering curl or rot with the compound expander never
produces an output expression, for any operand, identity, state,
dimension and fuel; and when the operand rewrite succeeds, as for a
terminal operand, the failure is deterministically the
NotImplementedError raised by the handler. -/
theorem curl_rot_never_produce_output :
    (∀ (dim fuel i : Nat) (a : Expr) (st : TState),
       isOk (visit (.expander dim) fuel (.mk .curl [a] i) st) = false) ∧
    (∀ (dim fuel i : Nat) (a : Expr) (st : TState),
       isOk (visit (.expander dim) fuel (.mk .rot [a] i) st) = false) ∧
    (∀ st : TState,
       visit (.expander 3) 100 (.mk .curl [fT] 20) st = .error .notImplementedError) ∧
    (∀ st : TState,
       visit (.expander 3) 100 (.mk .rot [fT] 20) st = .error .notImplementedError) := by
  refine ⟨?_, ?_, ?_, ?_⟩
  · intro dim fuel i a st
    match fuel with
    | 0 => rfl
    | fuel + 1 =>
      simp only [visit, Expr.kind, Expr.ops, resolveHandler, cvn]
      split
      · split
        · rfl
        · exact runWithChildren_curl_not_ok _ _ _ _
      · rfl
  · intro dim fuel i a st
    match fuel with
    | 0 => rfl
    | fuel + 1 =>
      simp only [visit, Expr.kind, Expr.ops, resolveHandler, cvn]
      split
      · split
        · rfl
        · exact runWithChildren_rot_not_ok _ _ _ _
      · rfl
  · intro st
    rfl
  · intro st
    rfl

/-- Claim C9: ufl2uflcopy and strip_variables construct Copier() and
VariableStripper() with no arguments although both __init__ methods
require a mapping parameter, so for every input expression, state and
fuel both entry points raise a TypeError before any rewriting
occurs. -/
theorem entry_points_raise_before_rewriting (fuel : Nat) (e : Expr) (st : TState) :
    ufl2uflcopy fuel e st = .error .typeError ∧
    strip_variables fuel e st = .error .typeError := ⟨rfl, rfl⟩

/-- Claim C10: constructing a ComponentTensor requires a scalar-valued
inner expression: whenever the inner expression's shape is non-empty,
construction (also through as_tensor and as_matrix with an index
tuple) fails with an assertion error and no node is created; and when
construction succeeds, the node's free indices are exactly the inner
expression's free indices minus the binding indices, and its shape is
the tuple of the binding indices' dimensions in the inner
expression. -/
theorem ComponentTensor_init_spec (e : Expr) (idxs : List Idx) (st : TState) :
    (shape e ≠ [] →
      ComponentTensor_init e (.tuple idxs) st = .error .assertionError ∧
      as_tensor e idxs st = .error .assertionError ∧
      as_matrix e idxs st = .error .assertionError) ∧
    (∀ r st', ComponentTensor_init e (.tuple idxs) st = .ok (r, st') →
      (∀ j, j ∈ free_indices r ↔ j ∈ free_indices e ∧ j ∉ idxs.filterMap Idx.freeCount) ∧
      shape r = (idxs.filterMap Idx.freeCount).map (fun i => dimOf e i)) := by
  constructor
  · intro hsh
    refine ⟨?_, ?_, ?_⟩
    · unfold ComponentTensor_init
      rw [if_neg hsh]
    · unfold as_tensor
      split
      · rfl
      · unfold ComponentTensor_init
        rw [if_neg hsh]
    · unfold as_matrix
      split
      · rfl
      · split
        · unfold ComponentTensor_init
          rw [if_neg hsh]
        · rfl
  · intro r st' h
    unfold ComponentTensor_init at h
    by_cases hsh : shape e = []
    · rw [if_pos hsh] at h
      dsimp only at h
      by_cases hall : idxs.all Idx.isFree = false
      · rw [if_pos hall] at h
        exact absurd h (by simp)
      · rw [if_neg hall] at h
        simp only [alloc] at h
        unfold ctFinish at h
        simp only [miIdxList, miFree] at h
        rw [if_neg hall] at h
        by_cases hmiss :
            ((idxs.filterMap Idx.freeCount).all fun i => (free_indices e).contains i) = false
        · rw [if_pos hmiss] at h
          exact absurd h (by simp)
        · rw [if_neg hmiss] at h
          simp only [alloc] at h
          injection h with h
          injection h with h1 h2
          subst h1
          constructor
          · intro j
            simp [free_indices, miFree, miIdxList, List.mem_filter]
          · simp [shape, attrs, miFree, miIdxList, attrs.go, dimOf, index_dimensions]
    · rw [if_neg hsh] at h
      exact absurd h (by simp)

/-- Witness for claim C10: binding index 5 over the non-scalar matrix
A fails the scalar assert, while binding index 5 over the scalar
access A[i5, i7] succeeds, leaving free index 7 and producing shape
[2]. -/
theorem ComponentTensor_init_spec_witness :
    (shape A22 ≠ [] ∧
     ComponentTensor_init A22 (.tuple [.free 5]) st0 = .error .assertionError) ∧
    (ComponentTensor_init tIx2 (.tuple [.free 5]) st0 = .ok (ctR, ⟨[], [], 0, 102⟩) ∧
     (7 ∈ free_indices ctR ↔ 7 ∈ free_indices tIx2 ∧ 7 ∉ [Idx.free 5].filterMap Idx.freeCount) ∧
     shape ctR = ([Idx.free 5].filterMap Idx.freeCount).map (fun i => dimOf tIx2 i)) := by
  constructor
  · exact ⟨by decide, ((ComponentTensor_init_spec A22 [.free 5] st0).1 (by decide)).1⟩
  · refine ⟨rfl, ?_, ?_⟩
    · exact ((ComponentTensor_init_spec tIx2 [.free 5] st0).2 ctR ⟨[], [], 0, 102⟩ rfl).1 7
    · exact ((ComponentTensor_init_spec tIx2 [.free 5] st0).2 ctR ⟨[], [], 0, 102⟩ rfl).2

end Ufl
